import Mathlib

/-!
Shallow embedding of the attendance submission pipeline of
`websitee/frontend/src/AttendanceProcessor.js` (the Jkamisama/proxy
repository), together with proofs of the behavioural properties stated
in the repository specification.

Modelling conventions:
* JavaScript values that may be `undefined`/`null` are `Option`s; the
  JavaScript truthiness test `!x` on strings is `jsFalsy`.
* Each remote `fetch` is replaced by an oracle argument: `fetches i`
  gives the outcome of the single-user call made for task index `i`,
  and a `BatchTransport` value gives the outcome of the aggregate call.
* Functions additionally return the list of outbound remote calls they
  perform, so that "no remote call is made" is a provable statement.
* The `AttendanceQueue` class is modelled as a labelled transition
  system (`QStep`/`QRun`) over its mutable state (`queue.length`,
  `running`, `results.length`), emitting a `ProgressSnapshot` exactly
  where `process()` invokes `onProgress`.
-/

/-- A user record as consumed by the processor: `{ name, stuId }`. -/
structure User where
  name : String
  stuId : String
deriving DecidableEq, Repr, Inhabited

/-- A per-user result row `{ name, status, code }` as built by the
processor; `code` is `none` when the upstream response carried no
`output.data.code` field (JavaScript `undefined`). -/
structure AttendanceResult where
  name : String
  status : String
  code : Option String
deriving DecidableEq, Repr, Inhabited

/-- The aggregate report returned by both processing paths. -/
structure BatchReport where
  success : Bool
  total : Nat
  successful : Nat
  failed : Nat
  results : List AttendanceResult
deriving DecidableEq, Repr

/-- One entry of the payload of the batch endpoint:
`{ name, stuId, cookie }` with `cookie = userCookies[index]`. -/
structure UserWithCookie where
  name : String
  stuId : String
  cookie : Option String
deriving DecidableEq, Repr

/-- An outbound remote call, recorded so that claims about "no remote
call is made" are statable. -/
inductive RemoteCall where
  | markAttendance (stuId attendanceId cookie : String)
  | markAttendanceBatch (attendanceId : String) (users : List UserWithCookie)
deriving DecidableEq, Repr

/-- Outcome of one single-task call to `/api/mark-attendance`: either
the parsed response field `output.data.code` (possibly
absent), or a thrown network error. -/
inductive FetchOutcome where
  | ok (code : Option String)
  | networkError
deriving DecidableEq, Repr

/-- JavaScript truthiness of `!x` for a possibly-missing string:
`undefined`, `null` and `""` are falsy. -/
def jsFalsy : Option String → Bool
  | none => true
  | some s => s.isEmpty

/-- JavaScript `x || d` for a possibly-missing string. -/
def jsOrStr (x : Option String) (d : String) : String :=
  match x with
  | none => d
  | some s => if s.isEmpty then d else s

/-- The status string computed from the upstream code
(`AttendanceProcessor.js` lines 193-196). -/
def statusFor (code : Option String) : String :=
  if code = some "SUCCESS" then "✅ Marked Present"
  else if code = some "ATTENDANCE_NOT_VALID" then "❌ Invalid QR"
  else "⚠️ " ++ jsOrStr code "Error"

/-- The body of one queued task (`AttendanceProcessor.js` lines
160-223): missing session cookie short-circuits without any fetch;
otherwise one fetch is made and its outcome (response code or thrown
network error) is mapped to a result row. Returns the result together
with the remote calls performed. -/
def runTask (user : User) (cookie : Option String) (attendanceId : String)
    (fetch : FetchOutcome) : AttendanceResult × List RemoteCall :=
  if jsFalsy cookie then
    (⟨user.name, "❌ No session cookie", some "COOKIE_ERROR"⟩, [])
  else
    match fetch with
    | .networkError =>
        (⟨user.name, "❌ Network error", some "TIMEOUT"⟩,
         [.markAttendance user.stuId attendanceId (cookie.getD "")])
    | .ok code =>
        (⟨user.name, statusFor code, code⟩,
         [.markAttendance user.stuId attendanceId (cookie.getD "")])

/-- `userCookies[index]` with JavaScript out-of-bounds semantics
(`undefined`, i.e. `none`). -/
def cookieAt (cookies : List (Option String)) (i : Nat) : Option String :=
  cookies.getD i none

/-- The per-task results of the queue path in input order:
`users.map((user, index) => queue.add(async () => ...))`, each task
settled with the row produced by `runTask`. -/
def queueResults (users : List User) (attendanceId : String)
    (cookies : List (Option String)) (fetches : Nat → FetchOutcome) :
    List (AttendanceResult × List RemoteCall) :=
  users.mapIdx (fun i u => runTask u (cookieAt cookies i) attendanceId (fetches i))

/-- `processQueueAttendance` (`AttendanceProcessor.js` lines 137-261):
all tasks are awaited with `Promise.allSettled` (whose output is in
task order), every settled value is pushed into `processedResults`,
`successful` counts rows with code `SUCCESS`, and
`failed = total - successful`. -/
def processQueueAttendance (users : List User) (attendanceId : String)
    (cookies : List (Option String)) (fetches : Nat → FetchOutcome) :
    BatchReport × List RemoteCall :=
  let settled := queueResults users attendanceId cookies fetches
  let processedResults := settled.map Prod.fst
  let successful := (processedResults.filter (fun r => r.code = some "SUCCESS")).length
  (⟨true, processedResults.length, successful,
    processedResults.length - successful, processedResults⟩,
   (settled.map Prod.snd).flatten)

theorem queueResults_length (users : List User) (attendanceId : String)
    (cookies : List (Option String)) (fetches : Nat → FetchOutcome) :
    (queueResults users attendanceId cookies fetches).length = users.length := by
  simp [queueResults]

theorem processQueue_results_length (users : List User) (attendanceId : String)
    (cookies : List (Option String)) (fetches : Nat → FetchOutcome) :
    (processQueueAttendance users attendanceId cookies fetches).1.results.length
      = users.length := by
  simp [processQueueAttendance, queueResults]

theorem length_filter_add_length_filter_not {α : Type} (l : List α) (p : α → Bool) :
    (l.filter p).length + (l.filter (fun a => !(p a))).length = l.length := by
  induction l with
  | nil => simp
  | cons a l ih =>
      by_cases h : p a = true <;> simp [List.filter_cons, h] <;> omega

theorem processQueue_total (users : List User) (attendanceId : String)
    (cookies : List (Option String)) (fetches : Nat → FetchOutcome) :
    (processQueueAttendance users attendanceId cookies fetches).1.total
      = users.length := by
  simp [processQueueAttendance, queueResults]

theorem processQueue_successful_le (users : List User) (attendanceId : String)
    (cookies : List (Option String)) (fetches : Nat → FetchOutcome) :
    (processQueueAttendance users attendanceId cookies fetches).1.successful
      ≤ (processQueueAttendance users attendanceId cookies fetches).1.total := by
  simpa [processQueueAttendance] using
    List.length_filter_le _ ((queueResults users attendanceId cookies fetches).map Prod.fst)

/-- C1: for every non-empty input list, the report of the queue path covers
every task exactly once: `results.length = users.length`,
`total = users.length`, and `successful + failed = total`. -/
theorem queue_report_covers_all_tasks (users : List User) (attendanceId : String)
    (cookies : List (Option String)) (fetches : Nat → FetchOutcome)
    (hne : users ≠ []) :
    (processQueueAttendance users attendanceId cookies fetches).1.results.length
        = users.length
    ∧ (processQueueAttendance users attendanceId cookies fetches).1.total
        = users.length
    ∧ (processQueueAttendance users attendanceId cookies fetches).1.successful
        + (processQueueAttendance users attendanceId cookies fetches).1.failed
        = (processQueueAttendance users attendanceId cookies fetches).1.total := by
  refine ⟨processQueue_results_length users attendanceId cookies fetches,
    processQueue_total users attendanceId cookies fetches, ?_⟩
  have h := processQueue_successful_le users attendanceId cookies fetches
  simp only [processQueueAttendance] at h ⊢
  omega

/-- Witness for C1 at a concrete input: one user, one cookie, a
successful fetch. -/
theorem queue_report_covers_all_tasks_witness :
    ([⟨"alice", "s1"⟩] : List User) ≠ []
    ∧ ((processQueueAttendance [⟨"alice", "s1"⟩] "evt" [some "c1"]
          (fun _ => .ok (some "SUCCESS"))).1.results.length = 1
    ∧ (processQueueAttendance [⟨"alice", "s1"⟩] "evt" [some "c1"]
          (fun _ => .ok (some "SUCCESS"))).1.total = 1
    ∧ (processQueueAttendance [⟨"alice", "s1"⟩] "evt" [some "c1"]
          (fun _ => .ok (some "SUCCESS"))).1.successful
        + (processQueueAttendance [⟨"alice", "s1"⟩] "evt" [some "c1"]
          (fun _ => .ok (some "SUCCESS"))).1.failed
        = (processQueueAttendance [⟨"alice", "s1"⟩] "evt" [some "c1"]
          (fun _ => .ok (some "SUCCESS"))).1.total) :=
  ⟨by decide,
   queue_report_covers_all_tasks [⟨"alice", "s1"⟩] "evt" [some "c1"]
     (fun _ => .ok (some "SUCCESS")) (by decide)⟩

/-- C10: in every queue-path report, `successful` counts exactly the
rows whose code is `SUCCESS`, and `failed` counts exactly all the other
rows (missing-cookie, network/timeout, unknown or absent upstream
codes). -/
theorem queue_success_failed_counting (users : List User) (attendanceId : String)
    (cookies : List (Option String)) (fetches : Nat → FetchOutcome) :
    (processQueueAttendance users attendanceId cookies fetches).1.successful
      = ((processQueueAttendance users attendanceId cookies fetches).1.results.filter
          (fun r => r.code = some "SUCCESS")).length
    ∧ (processQueueAttendance users attendanceId cookies fetches).1.failed
      = ((processQueueAttendance users attendanceId cookies fetches).1.results.filter
          (fun r => !(r.code = some "SUCCESS"))).length := by
  constructor
  · simp [processQueueAttendance]
  · have h := length_filter_add_length_filter_not
      ((queueResults users attendanceId cookies fetches).map Prod.fst)
      (fun r => decide (r.code = some "SUCCESS"))
    simp only [processQueueAttendance]
    simp only [decide_eq_true_eq] at h
    omega

/-- The settled entry (result row and remote calls) of task `i` in the
queue path. -/
def taskEntry (users : List User) (attendanceId : String)
    (cookies : List (Option String)) (fetches : Nat → FetchOutcome) (i : Nat) :
    AttendanceResult × List RemoteCall :=
  (queueResults users attendanceId cookies fetches).getD i default

theorem taskEntry_eq (users : List User) (attendanceId : String)
    (cookies : List (Option String)) (fetches : Nat → FetchOutcome) (i : Nat)
    (h : i < users.length) :
    taskEntry users attendanceId cookies fetches i
      = runTask (users.get ⟨i, h⟩) (cookieAt cookies i) attendanceId (fetches i) := by
  have hlen : i < (queueResults users attendanceId cookies fetches).length := by
    rw [queueResults_length]; exact h
  rw [taskEntry, List.getD_eq_get _ _ hlen]
  exact List.get_mapIdx users _ i h hlen

/-- C9: a queue-path task whose session cookie is absent settles with
the dedicated `COOKIE_ERROR` outcome — distinct from the network
(`TIMEOUT`) code and the success (`SUCCESS`) code — and performs no
remote call at all. -/
theorem missing_cookie_no_remote_call (users : List User) (attendanceId : String)
    (cookies : List (Option String)) (fetches : Nat → FetchOutcome) (i : Nat)
    (h : i < users.length) (hc : jsFalsy (cookieAt cookies i) = true) :
    (taskEntry users attendanceId cookies fetches i).1.code = some "COOKIE_ERROR"
    ∧ (taskEntry users attendanceId cookies fetches i).1.status = "❌ No session cookie"
    ∧ (taskEntry users attendanceId cookies fetches i).2 = []
    ∧ ("COOKIE_ERROR" : String) ≠ "TIMEOUT"
    ∧ ("COOKIE_ERROR" : String) ≠ "SUCCESS" := by
  rw [taskEntry_eq users attendanceId cookies fetches i h]
  rw [runTask.eq_def, if_pos hc]
  refine ⟨rfl, rfl, rfl, by decide, by decide⟩

/-- Witness for C9: second task of a two-user run has no cookie. -/
theorem missing_cookie_no_remote_call_witness :
    1 < ([⟨"a", "1"⟩, ⟨"b", "2"⟩] : List User).length
    ∧ jsFalsy (cookieAt [some "c1"] 1) = true
    ∧ ((taskEntry [⟨"a", "1"⟩, ⟨"b", "2"⟩] "evt" [some "c1"]
          (fun _ => .ok (some "SUCCESS")) 1).1.code = some "COOKIE_ERROR"
    ∧ (taskEntry [⟨"a", "1"⟩, ⟨"b", "2"⟩] "evt" [some "c1"]
          (fun _ => .ok (some "SUCCESS")) 1).1.status = "❌ No session cookie"
    ∧ (taskEntry [⟨"a", "1"⟩, ⟨"b", "2"⟩] "evt" [some "c1"]
          (fun _ => .ok (some "SUCCESS")) 1).2 = []
    ∧ ("COOKIE_ERROR" : String) ≠ "TIMEOUT"
    ∧ ("COOKIE_ERROR" : String) ≠ "SUCCESS") :=
  ⟨by decide, by decide,
   missing_cookie_no_remote_call [⟨"a", "1"⟩, ⟨"b", "2"⟩] "evt" [some "c1"]
     (fun _ => .ok (some "SUCCESS")) 1 (by decide) (by decide)⟩

/-- One row of the response of the batch endpoint:
`{ name, status, error? }`. -/
structure ServerResult where
  name : String
  status : String
  error : Option String
deriving DecidableEq, Repr

/-- The parsed body of a successful batch-endpoint response:
`{ total, successful, failed, results }`. -/
structure ServerBatchData where
  total : Nat
  successful : Nat
  failed : Nat
  results : List ServerResult
deriving DecidableEq, Repr

/-- Outcome of the aggregate call to `/api/mark-attendance-batch`:
either parsed response data, or a total transport failure (rejected
fetch, non-ok HTTP status, or unparsable body — everything that lands
in the `catch` block). -/
inductive BatchTransport where
  | ok (data : ServerBatchData)
  | failed
deriving DecidableEq, Repr

/-- Conversion of one server result row to the frontend format
(`AttendanceProcessor.js` lines 103-109). -/
def formatServerResult (r : ServerResult) : AttendanceResult :=
  if r.status = "success" then ⟨r.name, "✅ Marked Present", some "SUCCESS"⟩
  else ⟨r.name, "❌ " ++ jsOrStr r.error "Failed", some "ERROR"⟩

/-- `processBatchAttendance` (`AttendanceProcessor.js` lines 72-134):
sends one aggregate request with every user paired with their cookie;
on success converts the report of the server, and on any transport failure
falls back to `processQueueAttendance` with the same inputs (the queue
path never calls back into the batch path, so the fallback happens at
most once). -/
def processBatchAttendance (users : List User) (attendanceId : String)
    (cookies : List (Option String)) (transport : BatchTransport)
    (fetches : Nat → FetchOutcome) : BatchReport × List RemoteCall :=
  let usersWithCookies := users.mapIdx
    (fun i u => UserWithCookie.mk u.name u.stuId (cookies.getD i none))
  match transport with
  | .ok data =>
      (⟨true, data.total, data.successful, data.failed,
        data.results.map formatServerResult⟩,
       [.markAttendanceBatch attendanceId usersWithCookies])
  | .failed =>
      let fallback := processQueueAttendance users attendanceId cookies fetches
      (fallback.1, .markAttendanceBatch attendanceId usersWithCookies :: fallback.2)

/-- C5: when the aggregate call fails outright, the batch path returns
exactly the report of the queue path run on the same users, event id
and cookies, and that report still carries one result per input user.
The fallback is attempted at most once: `processQueueAttendance` is
defined without any reference to the batch path. -/
theorem batch_transport_failure_falls_back (users : List User) (attendanceId : String)
    (cookies : List (Option String)) (fetches : Nat → FetchOutcome) :
    (processBatchAttendance users attendanceId cookies .failed fetches).1
      = (processQueueAttendance users attendanceId cookies fetches).1
    ∧ (processBatchAttendance users attendanceId cookies .failed fetches).1.results.length
      = users.length := by
  constructor
  · rfl
  · exact processQueue_results_length users attendanceId cookies fetches

/-- The configuration errors surfaced by `processAttendance` before any
processing starts: empty user list, or cookies missing / not matching
the user list (`AttendanceProcessor.js` lines 265-273). -/
inductive ConfigError where
  | noUsers
  | cookiesMismatch
deriving DecidableEq, Repr

/-- `processAttendance` (`AttendanceProcessor.js` lines 264-281): fails
fast on the two configuration errors, then chooses the batch path when
the batch method is selected and `users.length >= 5`, and the queue
path otherwise. `method` is the `processingMethod` preference, whose
value `"batch"` embeds the spec condition that a server-side batch endpoint is
available" condition. -/
def processAttendance (users : List User) (attendanceId : String)
    (cookies : Option (List (Option String))) (method : String)
    (transport : BatchTransport) (fetches : Nat → FetchOutcome) :
    Except ConfigError BatchReport × List RemoteCall :=
  if users.length = 0 then (.error .noUsers, [])
  else
    match cookies with
    | none => (.error .cookiesMismatch, [])
    | some cs =>
        if cs.length ≠ users.length then (.error .cookiesMismatch, [])
        else if method = "batch" ∧ 5 ≤ users.length then
          let r := processBatchAttendance users attendanceId cs transport fetches
          (.ok r.1, r.2)
        else
          let r := processQueueAttendance users attendanceId cs fetches
          (.ok r.1, r.2)

/-- Whether an invocation surfaced a configuration error instead of a
report. -/
def isConfigError (e : Except ConfigError BatchReport) : Bool :=
  match e with
  | .error _ => true
  | .ok _ => false

/-- C6: whenever the cookie list does not match the user list in length
or the user list is empty, `processAttendance` surfaces a configuration
error and performs no remote call whatsoever. -/
theorem config_error_before_any_remote_call (users : List User) (attendanceId : String)
    (cs : List (Option String)) (method : String) (transport : BatchTransport)
    (fetches : Nat → FetchOutcome)
    (h : users.length = 0 ∨ cs.length ≠ users.length) :
    isConfigError (processAttendance users attendanceId (some cs) method
        transport fetches).1 = true
    ∧ (processAttendance users attendanceId (some cs) method transport fetches).2
        = [] := by
  rcases h with h | h
  · simp [processAttendance, h, isConfigError]
  · by_cases h0 : users.length = 0
    · simp [processAttendance, h0, isConfigError]
    · simp [processAttendance, h0, h, isConfigError]

/-- Witness for C6: three users with only two session cookies. -/
theorem config_error_before_any_remote_call_witness :
    (([⟨"a", "1"⟩, ⟨"b", "2"⟩, ⟨"c", "3"⟩] : List User).length = 0
      ∨ ([some "c1", some "c2"] : List (Option String)).length
          ≠ ([⟨"a", "1"⟩, ⟨"b", "2"⟩, ⟨"c", "3"⟩] : List User).length)
    ∧ (isConfigError (processAttendance [⟨"a", "1"⟩, ⟨"b", "2"⟩, ⟨"c", "3"⟩] "evt"
          (some [some "c1", some "c2"]) "batch" .failed
          (fun _ => .ok (some "SUCCESS"))).1 = true
    ∧ (processAttendance [⟨"a", "1"⟩, ⟨"b", "2"⟩, ⟨"c", "3"⟩] "evt"
          (some [some "c1", some "c2"]) "batch" .failed
          (fun _ => .ok (some "SUCCESS"))).2 = []) :=
  ⟨by decide,
   config_error_before_any_remote_call [⟨"a", "1"⟩, ⟨"b", "2"⟩, ⟨"c", "3"⟩] "evt"
     [some "c1", some "c2"] "batch" .failed (fun _ => .ok (some "SUCCESS"))
     (by decide)⟩

/-- C7: on valid inputs, the batch path is taken exactly when the batch
method is selected (the embedding of batch-endpoint availability) and
`users.length >= 5`; otherwise the queue path runs. -/
theorem strategy_selection (users : List User) (attendanceId : String)
    (cs : List (Option String)) (method : String) (transport : BatchTransport)
    (fetches : Nat → FetchOutcome)
    (hne : users.length ≠ 0) (hlen : cs.length = users.length) :
    ((method = "batch" ∧ 5 ≤ users.length) →
      processAttendance users attendanceId (some cs) method transport fetches
        = ((processBatchAttendance users attendanceId cs transport fetches).1
            |> Except.ok,
           (processBatchAttendance users attendanceId cs transport fetches).2))
    ∧ (¬(method = "batch" ∧ 5 ≤ users.length) →
      processAttendance users attendanceId (some cs) method transport fetches
        = ((processQueueAttendance users attendanceId cs fetches).1 |> Except.ok,
           (processQueueAttendance users attendanceId cs fetches).2)) := by
  constructor
  · intro hb
    rw [processAttendance, if_neg hne]
    simp only [hlen, if_neg (by omega : ¬ users.length ≠ users.length), if_pos hb]
  · intro hb
    rw [processAttendance, if_neg hne]
    simp only [hlen, if_neg (by omega : ¬ users.length ≠ users.length), if_neg hb]

/-- Witness for C7: five users with the batch method selected take the
batch path. -/
theorem strategy_selection_witness :
    (([⟨"a", "1"⟩, ⟨"b", "2"⟩, ⟨"c", "3"⟩, ⟨"d", "4"⟩, ⟨"e", "5"⟩] : List User).length ≠ 0
    ∧ ([some "c1", some "c2", some "c3", some "c4", some "c5"]
        : List (Option String)).length
        = ([⟨"a", "1"⟩, ⟨"b", "2"⟩, ⟨"c", "3"⟩, ⟨"d", "4"⟩, ⟨"e", "5"⟩] : List User).length)
    ∧ (("batch" = "batch" ∧ 5
          ≤ ([⟨"a", "1"⟩, ⟨"b", "2"⟩, ⟨"c", "3"⟩, ⟨"d", "4"⟩, ⟨"e", "5"⟩] : List User).length) →
      processAttendance [⟨"a", "1"⟩, ⟨"b", "2"⟩, ⟨"c", "3"⟩, ⟨"d", "4"⟩, ⟨"e", "5"⟩] "evt"
          (some [some "c1", some "c2", some "c3", some "c4", some "c5"]) "batch"
          (.ok ⟨5, 5, 0, []⟩) (fun _ => .ok (some "SUCCESS"))
        = ((processBatchAttendance
              [⟨"a", "1"⟩, ⟨"b", "2"⟩, ⟨"c", "3"⟩, ⟨"d", "4"⟩, ⟨"e", "5"⟩] "evt"
              [some "c1", some "c2", some "c3", some "c4", some "c5"]
              (.ok ⟨5, 5, 0, []⟩) (fun _ => .ok (some "SUCCESS"))).1 |> Except.ok,
           (processBatchAttendance
              [⟨"a", "1"⟩, ⟨"b", "2"⟩, ⟨"c", "3"⟩, ⟨"d", "4"⟩, ⟨"e", "5"⟩] "evt"
              [some "c1", some "c2", some "c3", some "c4", some "c5"]
              (.ok ⟨5, 5, 0, []⟩) (fun _ => .ok (some "SUCCESS"))).2)) :=
  ⟨⟨by decide, by decide⟩,
   (strategy_selection [⟨"a", "1"⟩, ⟨"b", "2"⟩, ⟨"c", "3"⟩, ⟨"d", "4"⟩, ⟨"e", "5"⟩] "evt"
     [some "c1", some "c2", some "c3", some "c4", some "c5"] "batch"
     (.ok ⟨5, 5, 0, []⟩) (fun _ => .ok (some "SUCCESS"))
     (by decide) (by decide)).1⟩

/-- The progress object passed to `onProgress`
(`AttendanceProcessor.js` lines 36-40): `{ completed, total }`. -/
structure ProgressSnapshot where
  completed : Nat
  total : Nat
deriving DecidableEq, Repr

/-- The mutable state of an `AttendanceQueue` instance: `pending` is
`this.queue.length`, `running` is `this.running`, `resultsLen` is
`this.results.length` (never appended to during processing), and `done`
counts tasks that reached a terminal state. -/
structure QState where
  pending : Nat
  running : Nat
  resultsLen : Nat
  done : Nat
deriving DecidableEq, Repr

/-- The snapshot `process()` emits when a task settles, computed from
the state in which the settling task is still counted in `running`:
`completed = this.results.length + 1` and
`total = this.results.length + this.queue.length + this.running`. -/
def snapOf (s : QState) : ProgressSnapshot :=
  ⟨s.resultsLen + 1, s.resultsLen + s.pending + s.running⟩

/-- One transition of an `AttendanceQueue` with concurrency ceiling `C`,
labelled with the snapshots it emits:
* `launch` — `process()` admits a pending task when
  `running < concurrency` and the queue is non-empty (lines 26-29);
* `finish` — a running task settles: `onProgress` fires once, then
  `running` is decremented (lines 32-45);
* `enqueue` — `add` pushes a new task (lines 18-22). -/
inductive QStep (C : Nat) : QState → List ProgressSnapshot → QState → Prop
  | launch (s : QState) (h1 : s.running < C) (h2 : 0 < s.pending) :
      QStep C s [] ⟨s.pending - 1, s.running + 1, s.resultsLen, s.done⟩
  | finish (s : QState) (h : 0 < s.running) :
      QStep C s [snapOf s] ⟨s.pending, s.running - 1, s.resultsLen, s.done + 1⟩
  | enqueue (s : QState) :
      QStep C s [] ⟨s.pending + 1, s.running, s.resultsLen, s.done⟩

/-- A finite execution of the queue, accumulating the emitted
snapshots in order. -/
inductive QRun (C : Nat) : QState → List ProgressSnapshot → QState → Prop
  | refl (s : QState) : QRun C s [] s
  | step {s s1 s2 : QState} {es tr : List ProgressSnapshot} :
      QStep C s es s1 → QRun C s1 tr s2 → QRun C s (es ++ tr) s2

theorem qstep_running_le {C : Nat} {s s1 : QState} {es : List ProgressSnapshot}
    (h : QStep C s es s1) (hle : s.running ≤ C) : s1.running ≤ C := by
  cases h with
  | launch h1 h2 => exact h1
  | finish h => simpa using Nat.le_trans (Nat.sub_le _ _) hle
  | enqueue => exact hle

theorem qrun_running_le {C : Nat} {s s1 : QState} {tr : List ProgressSnapshot}
    (h : QRun C s tr s1) (hle : s.running ≤ C) : s1.running ≤ C := by
  induction h with
  | refl s => exact hle
  | step hstep _ ih => exact ih (qstep_running_le hstep hle)

/-- C3: in every execution of the queue starting from a state with no
in-flight task, every reachable state keeps the number of in-flight
tasks at or below the concurrency ceiling `C`. -/
theorem queue_concurrency_invariant (C : Nat) (s s1 : QState)
    (tr : List ProgressSnapshot) (hrun : QRun C s tr s1)
    (hinit : s.running = 0) : s1.running ≤ C :=
  qrun_running_le hrun (by omega)

/-- Witness for C3: with `C = 3`, starting empty, enqueue two tasks,
admit both, finish one — the final in-flight count is within bound. -/
theorem queue_concurrency_invariant_witness :
    QRun 3 ⟨0, 0, 0, 0⟩
      ([] ++ ([] ++ ([] ++ ([] ++ ([snapOf ⟨0, 2, 0, 0⟩] ++ [])))))
      ⟨0, 1, 0, 1⟩
    ∧ (⟨0, 0, 0, 0⟩ : QState).running = 0
    ∧ (⟨0, 1, 0, 1⟩ : QState).running ≤ 3 := by
  have hrun : QRun 3 ⟨0, 0, 0, 0⟩
      ([] ++ ([] ++ ([] ++ ([] ++ ([snapOf ⟨0, 2, 0, 0⟩] ++ []))))) ⟨0, 1, 0, 1⟩ :=
    QRun.step (QStep.enqueue ⟨0, 0, 0, 0⟩)
      (QRun.step (QStep.enqueue ⟨1, 0, 0, 0⟩)
        (QRun.step (QStep.launch ⟨2, 0, 0, 0⟩ (by decide) (by decide))
          (QRun.step (QStep.launch ⟨1, 1, 0, 0⟩ (by decide) (by decide))
            (QRun.step (QStep.finish ⟨0, 2, 0, 0⟩ (by decide))
              (QRun.refl ⟨0, 1, 0, 1⟩)))))
  exact ⟨hrun, rfl, queue_concurrency_invariant 3 ⟨0, 0, 0, 0⟩ ⟨0, 1, 0, 1⟩ _ hrun rfl⟩

theorem qrun_resultsLen {C : Nat} {s s1 : QState} {tr : List ProgressSnapshot}
    (h : QRun C s tr s1) : s1.resultsLen = s.resultsLen := by
  induction h with
  | refl s => rfl
  | step hstep _ ih => cases hstep <;> simpa using ih

theorem qrun_done {C : Nat} {s s1 : QState} {tr : List ProgressSnapshot}
    (h : QRun C s tr s1) : s1.done = s.done + tr.length := by
  induction h with
  | refl s => simp
  | step hstep _ ih =>
      cases hstep <;> simp_all <;> omega

theorem qrun_snaps {C : Nat} {s s1 : QState} {tr : List ProgressSnapshot}
    (h : QRun C s tr s1) :
    ∀ p ∈ tr, p.completed = s.resultsLen + 1 ∧ p.completed ≤ p.total := by
  induction h with
  | refl s => intro p hp; cases hp
  | step hstep hrun ih =>
      intro p hp
      rcases List.mem_append.1 hp with hp | hp
      · cases hstep with
        | launch h1 h2 => cases hp
        | finish h =>
            rcases List.mem_singleton.1 hp with rfl
            refine ⟨rfl, ?_⟩
            simp only [snapOf]
            omega
        | enqueue => cases hp
      · have := ih p hp
        cases hstep <;> simpa using this

theorem pairwise_le_of_all_eq {α : Type} (l : List α) (f : α → Nat) (k : Nat)
    (h : ∀ p ∈ l, f p = k) : l.Pairwise (fun a b => f a ≤ f b) := by
  induction l with
  | nil => exact List.Pairwise.nil
  | cons a l ih =>
      refine List.Pairwise.cons ?_ (ih (fun p hp => h p (List.mem_cons_of_mem a hp)))
      intro b hb
      rw [h a (List.mem_cons_self a l), h b (List.mem_cons_of_mem a hb)]

/-- C8: in every queue execution starting from the cleared state
(`results = []`, no task yet terminal), one snapshot is emitted per
task that reaches a terminal state, the emitted `completed` counts are
monotonically non-decreasing across the run, and in no snapshot does
`completed` exceeds its `total`. -/
theorem queue_progress_snapshots (C : Nat) (s s1 : QState)
    (tr : List ProgressSnapshot) (hrun : QRun C s tr s1)
    (hres : s.resultsLen = 0) (hdone : s.done = 0) :
    tr.length = s1.done
    ∧ tr.Pairwise (fun a b => a.completed ≤ b.completed)
    ∧ (∀ p ∈ tr, p.completed ≤ p.total) := by
  refine ⟨?_, ?_, ?_⟩
  · have := qrun_done hrun
    omega
  · exact pairwise_le_of_all_eq tr (fun p => p.completed) (s.resultsLen + 1)
      (fun p hp => (qrun_snaps hrun p hp).1)
  · exact fun p hp => (qrun_snaps hrun p hp).2

/-- Witness for C8: the concrete run of the C3 witness, with two
enqueues, two launches and one completion. -/
theorem queue_progress_snapshots_witness :
    QRun 3 ⟨0, 0, 0, 0⟩
      ([] ++ ([] ++ ([] ++ ([] ++ ([snapOf ⟨0, 2, 0, 0⟩] ++ [])))))
      ⟨0, 1, 0, 1⟩
    ∧ (⟨0, 0, 0, 0⟩ : QState).resultsLen = 0
    ∧ (⟨0, 0, 0, 0⟩ : QState).done = 0
    ∧ (([] ++ ([] ++ ([] ++ ([] ++ ([snapOf ⟨0, 2, 0, 0⟩] ++ [])))) :
          List ProgressSnapshot).length = (⟨0, 1, 0, 1⟩ : QState).done
    ∧ ([] ++ ([] ++ ([] ++ ([] ++ ([snapOf ⟨0, 2, 0, 0⟩] ++ [])))) :
          List ProgressSnapshot).Pairwise (fun a b => a.completed ≤ b.completed)
    ∧ (∀ p ∈ ([] ++ ([] ++ ([] ++ ([] ++ ([snapOf ⟨0, 2, 0, 0⟩] ++ [])))) :
          List ProgressSnapshot), p.completed ≤ p.total)) := by
  have hrun : QRun 3 ⟨0, 0, 0, 0⟩
      ([] ++ ([] ++ ([] ++ ([] ++ ([snapOf ⟨0, 2, 0, 0⟩] ++ []))))) ⟨0, 1, 0, 1⟩ :=
    QRun.step (QStep.enqueue ⟨0, 0, 0, 0⟩)
      (QRun.step (QStep.enqueue ⟨1, 0, 0, 0⟩)
        (QRun.step (QStep.launch ⟨2, 0, 0, 0⟩ (by decide) (by decide))
          (QRun.step (QStep.launch ⟨1, 1, 0, 0⟩ (by decide) (by decide))
            (QRun.step (QStep.finish ⟨0, 2, 0, 0⟩ (by decide))
              (QRun.refl ⟨0, 1, 0, 1⟩)))))
  exact ⟨hrun, rfl, rfl,
    queue_progress_snapshots 3 ⟨0, 0, 0, 0⟩ ⟨0, 1, 0, 1⟩ _ hrun rfl rfl⟩

/-- The incrementally-filled results array of the queue path: `n` slots
start unfilled (the `PENDING` placeholder array of line 140), and each
task, as it completes — in arbitrary completion order — writes its row
at its original input index (the `setResults(prev => ...)` updates and
the per-index collection of `Promise.allSettled`). -/
def assemble {α : Type} (n : Nat) (arrivals : List (Nat × α)) : List (Option α) :=
  arrivals.foldl (fun acc p => acc.set p.1 (some p.2)) (List.replicate n none)

theorem assemble_fold_getElem? {α : Type} (f : Nat → α) (σ : List Nat)
    (init : List (Option α)) (j : Nat) :
    ((σ.map (fun i => (i, f i))).foldl (fun acc p => acc.set p.1 (some p.2)) init)[j]?
      = if j ∈ σ ∧ j < init.length then some (some (f j)) else init[j]? := by
  induction σ generalizing init with
  | nil => simp
  | cons i σ ih =>
      rw [List.map_cons, List.foldl_cons, ih, List.length_set]
      by_cases hlen : j < init.length
      case neg =>
        have h0 : init[j]? = none := List.getElem?_eq_none (Nat.le_of_not_lt hlen)
        have h1 : (init.set i (some (f i)))[j]? = none :=
          List.getElem?_eq_none (by rw [List.length_set]; exact Nat.le_of_not_lt hlen)
        rw [if_neg (fun h => hlen h.2), if_neg (fun h => hlen h.2), h0, h1]
      case pos =>
        by_cases hij : i = j
        · subst hij
          have h2 : (init.set i (some (f i)))[i]? = some (some (f i)) :=
            List.getElem?_set_eq_of_lt _ hlen
          by_cases hmem : i ∈ σ
          · rw [if_pos ⟨hmem, hlen⟩, if_pos ⟨List.mem_cons_self i σ, hlen⟩]
          · rw [if_neg (fun h => hmem h.1), h2,
              if_pos ⟨List.mem_cons_self i σ, hlen⟩]
        · have h3 : (init.set i (some (f i)))[j]? = init[j]? := by
            rw [List.getElem?_set, if_neg hij]
          by_cases hmem : j ∈ σ
          · rw [if_pos ⟨hmem, hlen⟩, if_pos ⟨List.mem_cons_of_mem i hmem, hlen⟩]
          · rw [if_neg (fun h => hmem h.1), h3,
              if_neg (fun h =>
                (List.mem_cons.1 h.1).elim (fun he => hij he.symm) hmem)]

/-- When the arriving indices are a permutation of `0..n-1`, the
assembled array is fully determined by the input indexing: slot `j`
holds the row of task `j`, whatever the completion order was. -/
theorem assemble_perm_eq {α : Type} (f : Nat → α) (n : Nat) (σ : List Nat)
    (hσ : σ.Perm (List.range n)) :
    assemble n (σ.map (fun i => (i, f i)))
      = (List.range n).map (fun i => some (f i)) := by
  apply List.ext_getElem?
  intro j
  have hmem : j ∈ σ ↔ j < n := by rw [hσ.mem_iff, List.mem_range]
  rw [assemble, assemble_fold_getElem? f σ (List.replicate n none) j]
  by_cases hj : j < n
  · rw [if_pos ⟨hmem.2 hj, by simpa using hj⟩, List.getElem?_map,
      List.getElem?_range hj]
    rfl
  · rw [if_neg (by simp [hmem, hj]), List.getElem?_replicate, if_neg hj,
      List.getElem?_map]
    rw [List.getElem?_eq_none (by simpa using Nat.le_of_not_lt hj)]
    rfl

theorem range_map_getD {α : Type} (l : List α) (d : α) :
    (List.range l.length).map (fun i => l.getD i d) = l := by
  apply List.ext_getElem?
  intro j
  rw [List.getElem?_map]
  by_cases hj : j < l.length
  · rw [List.getElem?_range hj, List.getElem?_eq_getElem hj]
    simp [List.getD_eq_getElem?_getD, List.getElem?_eq_getElem hj]
  · rw [List.getElem?_eq_none (by simpa using Nat.le_of_not_lt hj),
      List.getElem?_eq_none (Nat.le_of_not_lt hj)]
    rfl

theorem taskEntry_fst (users : List User) (attendanceId : String)
    (cookies : List (Option String)) (fetches : Nat → FetchOutcome) (i : Nat) :
    (taskEntry users attendanceId cookies fetches i).1
      = ((processQueueAttendance users attendanceId cookies fetches).1.results).getD
          i default := by
  by_cases hi : i < users.length
  · have h1 : i < (queueResults users attendanceId cookies fetches).length := by
      rw [queueResults_length]; exact hi
    have h2 : i
        < (processQueueAttendance users attendanceId cookies fetches).1.results.length := by
      rw [processQueue_results_length]; exact hi
    rw [taskEntry, List.getD_eq_getElem _ _ h1, List.getD_eq_getElem _ _ h2]
    simp [processQueueAttendance]
  · have h1 : (queueResults users attendanceId cookies fetches).length ≤ i := by
      rw [queueResults_length]; omega
    have h2 :
        (processQueueAttendance users attendanceId cookies fetches).1.results.length
          ≤ i := by
      rw [processQueue_results_length]; omega
    rw [taskEntry, List.getD_eq_default _ _ h1, List.getD_eq_default _ _ h2]
    rfl

/-- C2: whatever order `σ` the queue-path tasks complete in, the
results array they assemble equals the results sequence of the report, which
is ordered by original input index. -/
theorem queue_results_order_independent (users : List User) (attendanceId : String)
    (cookies : List (Option String)) (fetches : Nat → FetchOutcome) (σ : List Nat)
    (hσ : σ.Perm (List.range users.length)) :
    assemble users.length
        (σ.map (fun i => (i, (taskEntry users attendanceId cookies fetches i).1)))
      = (processQueueAttendance users attendanceId cookies fetches).1.results.map
          some := by
  rw [assemble_perm_eq _ users.length σ hσ]
  have hlen :
      (processQueueAttendance users attendanceId cookies fetches).1.results.length
        = users.length := processQueue_results_length users attendanceId cookies fetches
  calc (List.range users.length).map
        (fun i => some ((taskEntry users attendanceId cookies fetches i).1))
      = (List.range
          (processQueueAttendance users attendanceId cookies fetches).1.results.length).map
          (fun i => some
            ((processQueueAttendance users attendanceId cookies fetches).1.results.getD
              i default)) := by
        rw [hlen]
        exact List.map_congr_left (fun i _ => by
          rw [taskEntry_fst users attendanceId cookies fetches i])
    _ = ((List.range
          (processQueueAttendance users attendanceId cookies fetches).1.results.length).map
          (fun i =>
            (processQueueAttendance users attendanceId cookies fetches).1.results.getD
              i default)).map some := by
        rw [List.map_map]
        rfl
    _ = (processQueueAttendance users attendanceId cookies fetches).1.results.map
          some := by
        rw [range_map_getD]

/-- Witness for C2: two users completing in reversed order `[1, 0]`
still assemble the input-ordered results. -/
theorem queue_results_order_independent_witness :
    ([1, 0] : List Nat).Perm (List.range ([⟨"a", "1"⟩, ⟨"b", "2"⟩] : List User).length)
    ∧ assemble ([⟨"a", "1"⟩, ⟨"b", "2"⟩] : List User).length
        (([1, 0] : List Nat).map
          (fun i => (i, (taskEntry [⟨"a", "1"⟩, ⟨"b", "2"⟩] "evt"
            [some "c1", some "c2"] (fun _ => .ok (some "SUCCESS")) i).1)))
      = (processQueueAttendance [⟨"a", "1"⟩, ⟨"b", "2"⟩] "evt"
          [some "c1", some "c2"] (fun _ => .ok (some "SUCCESS"))).1.results.map some :=
  ⟨by decide,
   queue_results_order_independent [⟨"a", "1"⟩, ⟨"b", "2"⟩] "evt"
     [some "c1", some "c2"] (fun _ => .ok (some "SUCCESS")) [1, 0] (by decide)⟩

/-- Outcome of one `api.post` call made by the backend retry wrapper:
either a delivered response body (`response.data` — this is how an
explicit upstream rejection arrives, as a body with a non-success
code), or a thrown network/timeout error. -/
inductive CallOutcome where
  | respData (d : String)
  | netFail
deriving DecidableEq, Repr

/-- Terminal outcome of a retried submission: the delivered body, or
the last failure propagated after all attempts were exhausted. -/
inductive SubmitOutcome where
  | resolved (d : String)
  | errored
deriving DecidableEq, Repr

/-- Result of a whole retried submission: its outcome, the total time
waited in backoff delays, and the number of calls made. -/
structure RetryRun where
  outcome : SubmitOutcome
  waited : Nat
  callsMade : Nat
deriving DecidableEq, Repr

/-- Modelled from the spec: the backend retry wrapper
`markSingleAttendance(stuId, attendanceId, cookie, retries = 3)` of
`websitee/backend/index.js` is not among the sources; it is modelled
from spec §4.2 and the code excerpt in `TECHNICAL_REPORT.md`
("Exponential Backoff Retry"). For `attempt = 1..retries`: call the
upstream; a delivered response (including an explicit rejection body)
is returned at once; a thrown network/timeout error is retried after
waiting `baseDelay * 2 ^ (attempt - 1)`, and the last error is
propagated when the attempts are exhausted. -/
def msaLoop (calls : Nat → CallOutcome) (baseDelay retries attempt waited made : Nat) :
    RetryRun :=
  if h : retries < attempt then ⟨.errored, waited, made⟩
  else
    match calls attempt with
    | .respData d => ⟨.resolved d, waited, made + 1⟩
    | .netFail =>
        if h2 : attempt = retries then ⟨.errored, waited, made + 1⟩
        else msaLoop calls baseDelay retries (attempt + 1)
          (waited + baseDelay * 2 ^ (attempt - 1)) (made + 1)
termination_by retries + 1 - attempt
decreasing_by omega

/-- Modelled from the spec: one retried submission with the default
default bound of `maxAttempts = 3`. -/
def markSingleAttendance (calls : Nat → CallOutcome) (baseDelay : Nat) : RetryRun :=
  msaLoop calls baseDelay 3 1 0 0

/-- C4: with `maxAttempts = 3`, a delivered response — success or an
explicit rejection body — is returned from the first call with no retry
and no waiting; network failures on attempts 1 and 2 followed by a
delivered response on attempt 3 yield that response after waiting
exactly `baseDelay * 1 + baseDelay * 2` across three calls; and three
network failures exhaust the attempts and propagate the last failure. -/
theorem retry_policy (calls : Nat → CallOutcome) (baseDelay : Nat) (d : String) :
    (calls 1 = .respData d →
      markSingleAttendance calls baseDelay = ⟨.resolved d, 0, 1⟩)
    ∧ (calls 1 = .netFail → calls 2 = .netFail → calls 3 = .respData d →
      markSingleAttendance calls baseDelay
        = ⟨.resolved d, baseDelay * 1 + baseDelay * 2, 3⟩)
    ∧ (calls 1 = .netFail → calls 2 = .netFail → calls 3 = .netFail →
      markSingleAttendance calls baseDelay
        = ⟨.errored, baseDelay * 1 + baseDelay * 2, 3⟩) := by
  refine ⟨?_, ?_, ?_⟩
  · intro h1
    rw [markSingleAttendance, msaLoop, dif_neg (by omega : ¬ 3 < 1), h1]
  · intro h1 h2 h3
    rw [markSingleAttendance, msaLoop, dif_neg (by omega : ¬ 3 < 1), h1,
      dif_neg (by omega : ¬ 1 = 3), msaLoop, dif_neg (by omega : ¬ 3 < 2), h2,
      dif_neg (by omega : ¬ 2 = 3), msaLoop, dif_neg (by omega : ¬ 3 < 3), h3]
    norm_num
  · intro h1 h2 h3
    rw [markSingleAttendance, msaLoop, dif_neg (by omega : ¬ 3 < 1), h1,
      dif_neg (by omega : ¬ 1 = 3), msaLoop, dif_neg (by omega : ¬ 3 < 2), h2,
      dif_neg (by omega : ¬ 2 = 3), msaLoop, dif_neg (by omega : ¬ 3 < 3), h3,
      dif_pos rfl]
    norm_num

/-- Witness for C4: an upstream that fails twice and then delivers a
success body, with `baseDelay = 1000` as in the source (`1s, 2s`). -/
theorem retry_policy_witness :
    ((fun n => if n < 3 then CallOutcome.netFail else .respData "SUCCESS") 1
        = CallOutcome.netFail)
    ∧ ((fun n => if n < 3 then CallOutcome.netFail else .respData "SUCCESS") 2
        = CallOutcome.netFail)
    ∧ ((fun n => if n < 3 then CallOutcome.netFail else .respData "SUCCESS") 3
        = CallOutcome.respData "SUCCESS")
    ∧ markSingleAttendance
        (fun n => if n < 3 then CallOutcome.netFail else .respData "SUCCESS") 1000
      = ⟨.resolved "SUCCESS", 1000 * 1 + 1000 * 2, 3⟩ :=
  ⟨rfl, rfl, rfl,
   ((retry_policy (fun n => if n < 3 then CallOutcome.netFail else .respData "SUCCESS")
      1000 "SUCCESS").2.1) rfl rfl rfl⟩
